import Mathlib

/-!
Shallow embedding of the Arise plot-management backend
(FastAPI + Firestore service layer) for specification checking.

The definitions mirror, function by function, the Python source:
- `app/services/auth.py`   (permission table, token issuance, request validation)
- `app/schemas/auth.py`    (zone-code format validator)
- `app/schemas/plots.py`   (release-status validator, request shapes)
- `app/services/firestore.py` (topology validation, paginated plot listing,
  plot update and plot release against a document collection)

The Firestore store is modelled as a list of documents ordered by document
id (the service orders every query by `__name__`).  Machine details that the
claims do not touch (actual JWT signing bytes, server timestamps as wall
clock, floating-point area parsing) are carried as opaque values: the token
payload is the structure that is signed, the timestamp is a `Nat` supplied by
the caller, areas are carried through unchanged as integers.
-/

deriving instance DecidableEq for Except

namespace Arise

/-- Python-style string truthiness for optional strings:
`None` and `""` are falsy. -/
def pyTruthy : Option String → Bool
  | none => false
  | some s => s ≠ ""

/-- Python `str.lower()` restricted to the ASCII strings the API deals in:
lowercase every character. -/
def pyLower (s : String) : String := String.mk (s.data.map Char.toLower)

/-- Lexicographic order on character lists (the order Firestore uses on
document ids, spelled out so it computes). -/
def strLtb : List Char → List Char → Bool
  | [], [] => false
  | [], _ :: _ => true
  | _ :: _, [] => false
  | a :: as, b :: bs =>
    if a < b then true else if b < a then false else strLtb as bs

/-- Lexicographic order on strings (document ids). -/
def strLt (a b : String) : Bool := strLtb a.data b.data

/-! ## Roles and permissions (`app/services/auth.py`) -/

/-- `UserRole` enum from `app/schemas/auth.py`. -/
inductive UserRole where
  | super_admin
  | zone_admin
  | normal_user
deriving DecidableEq, Repr

/-- The string value of a `UserRole` (Python str-enum `.value`). -/
def UserRole.val : UserRole → String
  | .super_admin => "super_admin"
  | .zone_admin => "zone_admin"
  | .normal_user => "normal_user"

/-- A permission set `{read: [...], write: [...]}`. -/
structure Permissions where
  read : List String
  write : List String
deriving DecidableEq, Repr

/-- `AuthService.PERMISSIONS_MAP` from `app/services/auth.py`:
role string → permission sets; unknown keys are absent. -/
def PERMISSIONS_MAP (role : String) : Option Permissions :=
  if role = "super_admin" then
    some ⟨["plots", "zones", "users"], ["plots", "zones", "users"]⟩
  else if role = "zone_admin" then
    some ⟨["plots", "zones"], ["plots", "zones"]⟩
  else if role = "normal_user" then
    some ⟨["plots", "zones"], []⟩
  else none

/-- `AuthService.get_permissions_for_role`: dictionary lookup with
fail-closed default `{read: [], write: []}`. -/
def get_permissions_for_role (role : String) : Permissions :=
  (PERMISSIONS_MAP role).getD ⟨[], []⟩

/-! ## Token issuance (`app/services/auth.py`, `app/schemas/auth.py`) -/

/-- `settings.JWT_EXPIRE_HOURS` from `app/core/config.py`. -/
def JWT_EXPIRE_HOURS : Nat := 24

/-- `settings.AUTH_SECRET_KEY` default from `app/core/config.py`. -/
def AUTH_SECRET_KEY : String := "arise-master-auth-secret-2025"

/-- `AuthTokenRequest` from `app/schemas/auth.py` (after Pydantic
validation: `role` is one of the three enum members). -/
structure AuthTokenRequest where
  userId : String
  role : UserRole
  zone : String
deriving DecidableEq, Repr

/-- Python `str.isalpha` restricted to the ASCII strings the API deals in:
non-empty and every character a letter. -/
def pyIsAlpha (s : String) : Bool :=
  s.data ≠ [] && s.data.all Char.isAlpha

/-- Python `str.isupper` restricted to ASCII strings: at least one cased
character and no lowercase cased character. -/
def pyIsUpper (s : String) : Bool :=
  (s.data.filter Char.isAlpha) ≠ [] && (s.data.filter Char.isAlpha).all Char.isUpper

/-- `AuthTokenRequest.validate_zone_code` from `app/schemas/auth.py`:
the zone must be 4-6 uppercase letters; returns the value unchanged. -/
def validate_zone_code (v : String) : Except String String :=
  if !pyIsAlpha v || !pyIsUpper v || !(4 ≤ v.length && v.length ≤ 6) then
    .error "Zone code must be 4-6 uppercase letters (e.g., GSEZ, OSEZ)"
  else
    .ok v

/-- `AuthService.validate_request` from `app/services/auth.py`: checks the
issuance secret against the configured `AUTH_SECRET_KEY` and the role
against the enum values; performs no zone check.  Returns an error code or
`none` when valid. `auth_secret` is the configured `settings.AUTH_SECRET_KEY`. -/
def validate_request (req : AuthTokenRequest) (secret_key auth_secret : String) :
    Option String :=
  if secret_key ≠ auth_secret then some "INVALID_SECRET_KEY"
  else if !([UserRole.super_admin.val, UserRole.zone_admin.val,
             UserRole.normal_user.val].contains req.role.val) then
    some "INVALID_ROLE"
  else none

/-- The decoded JWT payload built by `AuthService.create_jwt_token`. -/
structure JWTPayload where
  userId : String
  role : String
  zone : String
  permissions : Permissions
  iat : Nat
  exp : Nat
deriving DecidableEq, Repr

/-- `AuthService.create_jwt_token` from `app/services/auth.py`: builds the
payload that gets signed; `now` is the current UTC time in seconds. -/
def create_jwt_token (req : AuthTokenRequest) (now : Nat) : JWTPayload :=
  { userId := req.userId
    role := req.role.val
    zone := req.zone
    permissions := get_permissions_for_role req.role.val
    iat := now
    exp := now + JWT_EXPIRE_HOURS * 3600 }

/-! ## Topology validation (`app/services/firestore.py`) -/

/-- `FirestoreService.country_zone_mapping`: the static
country → canonical-zone table. -/
def country_zone_mapping : List (String × String) :=
  [("drc", "CIP"), ("benin", "GDIZ"), ("gabon", "GSEZ"), ("nigeria", "IPR"),
   ("roc", "PIC"), ("rwanda", "BSEZ"), ("togo", "PIA")]

/-- The two `ValueError` shapes raised by
`FirestoreService.validate_country_zone_mapping`. -/
inductive MappingError where
  | UnsupportedCountry
  | InvalidMapping
deriving DecidableEq, Repr

/-- `FirestoreService.validate_country_zone_mapping`: `mapping.get(lower)`
with Python falsiness check (`if not expected_zone`), then equality of the
supplied zone code with the canonical one. -/
def validate_country_zone_mapping (country zone_code : String) :
    Except MappingError Bool :=
  let expected := ((country_zone_mapping.lookup (pyLower country)).getD "")
  if expected = "" then
    .error .UnsupportedCountry
  else if zone_code ≠ expected then
    .error .InvalidMapping
  else
    .ok true

/-! ## Plot documents and the listing query (`app/services/firestore.py`) -/

/-- `PlotStatus` enum from `app/schemas/plots.py`. -/
inductive PlotStatus where
  | AVAILABLE
  | ALLOCATED
  | RESERVED
deriving DecidableEq, Repr

/-- String value of a `PlotStatus`. -/
def PlotStatus.val : PlotStatus → String
  | .AVAILABLE => "Available"
  | .ALLOCATED => "Allocated"
  | .RESERVED => "Reserved"

/-- `PlotCategory` enum from `app/schemas/plots.py`. -/
inductive PlotCategory where
  | RESIDENTIAL
  | COMMERCIAL
  | INDUSTRIAL
deriving DecidableEq, Repr

/-- String value of a `PlotCategory`. -/
def PlotCategory.val : PlotCategory → String
  | .RESIDENTIAL => "Residential"
  | .COMMERCIAL => "Commercial"
  | .INDUSTRIAL => "Industrial"

/-- A stored plot document as read by the listing query: document id plus
the fields `get_available_plots` extracts (`name`, `plotStatus`,
`category`, `phase`, `areaInSqm`, `areaInHa`).  The store content is
modelled as well-typed (statuses and categories are the repo's own enums,
`phase` an integer, areas carried through as integers), so the service's
per-document defensive `try/except` skip never fires in this model. -/
structure PlotDoc where
  id : String
  name : String
  plotStatus : PlotStatus
  category : PlotCategory
  phase : Int
  areaInSqm : Int
  areaInHa : Int
deriving DecidableEq, Repr

/-- `PlotResponse` from `app/schemas/plots.py`. -/
structure PlotResponse where
  plotName : String
  plotStatus : PlotStatus
  category : PlotCategory
  phase : Int
  areaInSqm : Int
  areaInHa : Int
  zoneCode : String
  country : String
deriving DecidableEq, Repr

/-- Query parameters of `GET /plot/available` as consumed by
`FirestoreService.get_available_plots` (the service reads `country`,
`zoneCode`, `phase`, `category`, `limit`, `cursor`). -/
structure PlotQueryParams where
  country : String
  zoneCode : String
  phase : String
  category : Option PlotCategory
  limit : Option Nat
  cursor : Option String
deriving DecidableEq, Repr

/-- The pagination metadata dict built by the service. -/
structure PaginationMeta where
  limit : Nat
  hasNextPage : Bool
  nextCursor : Option String
  totalReturned : Nat
deriving DecidableEq, Repr

/-- The two exception classes `get_available_plots` can raise:
`ValueError` out of topology validation and `PermissionError` out of the
zone-pin check (the HTTP layer maps the former to 400 INVALID_MAPPING and
the latter to 403 ACCESS_DENIED / FORBIDDEN). -/
inductive QueryError where
  | Validation (e : MappingError)
  | AccessDenied
deriving DecidableEq, Repr

/-- The per-document mapping into `PlotResponse` (Step 8 of
`get_available_plots`): `plotName` from `name`, data fields copied,
`zoneCode`/`country` echoed from the query parameters. -/
def toPlotResponse (q : PlotQueryParams) (d : PlotDoc) : PlotResponse :=
  { plotName := d.name
    plotStatus := d.plotStatus
    category := d.category
    phase := d.phase
    areaInSqm := d.areaInSqm
    areaInHa := d.areaInHa
    zoneCode := q.zoneCode
    country := q.country }

/-- Cursor resolution (Step 4): the query is ordered by document id
(`order_by('__name__')`); if a cursor is supplied and a document with that
id exists, `start_after` keeps only documents with strictly larger ids;
an unresolvable cursor is ignored (start from the beginning). -/
def applyCursor (docs : List PlotDoc) (cursor : Option String) : List PlotDoc :=
  match cursor with
  | none => docs
  | some c => if docs.any (fun d => d.id = c) then docs.filter (fun d => strLt c d.id) else docs

/-- `query_params.limit or 50`: Python `or` replaces falsy values
(`None` and `0`) by the default 50. -/
def effLimit : Option Nat → Nat
  | none => 50
  | some l => if l = 0 then 50 else l

/-- The client-side category filter (Step 8): documents whose `category`
differs from the requested one are skipped. -/
def filterByCategory (c : Option PlotCategory) (docs : List PlotDoc) : List PlotDoc :=
  match c with
  | none => docs
  | some cat => docs.filter (fun d => d.category = cat)

/-- `FirestoreService.get_available_plots` over a collection state `docs`
(the documents of partition `{country}/{zoneCode}/{phase}`, in document-id
order).  Mirrors the source step by step: topology validation, zone-pin
check for `zone_admin`, cursor resolution, fetch of `limit + 1` documents,
next-page detection and cursor from the truncated page, then the category
filter and response mapping with `totalReturned` counted after filtering. -/
def get_available_plots (docs : List PlotDoc) (q : PlotQueryParams)
    (user_zone : Option String) (is_zone_admin : Bool) :
    Except QueryError (List PlotResponse × PaginationMeta) :=
  match validate_country_zone_mapping q.country q.zoneCode with
  | .error e => .error (.Validation e)
  | .ok _ =>
    if is_zone_admin && pyTruthy user_zone && user_zone ≠ some q.zoneCode then
      .error .AccessDenied
    else
      let limit := effLimit q.limit
      let fetched := (applyCursor docs q.cursor).take (limit + 1)
      let hasNext := decide (limit < fetched.length)
      let page := if hasNext then fetched.dropLast else fetched
      let nextCursor := if hasNext then page.getLast?.map (fun d => d.id) else none
      let plots := (filterByCategory q.category page).map (toPlotResponse q)
      .ok (plots, { limit := limit, hasNextPage := hasNext, nextCursor := nextCursor,
                    totalReturned := plots.length })

/-- Following the pagination protocol: call `get_available_plots`
repeatedly, feeding back `nextCursor` while `hasNextPage` is true, and
concatenate the pages.  `fuel` bounds the number of round trips; the
returned flag records whether a page with `hasNextPage = false` was
reached (the traversal completed).  The collection is not mutated between
requests.  The caller scope is fixed (no zone pin). -/
def followPages (docs : List PlotDoc) (q : PlotQueryParams) :
    Nat → Option String → List PlotResponse × Bool
  | 0, _ => ([], false)
  | fuel + 1, cursor =>
    match get_available_plots docs { q with cursor := cursor } none false with
    | .error _ => ([], false)
    | .ok (plots, meta) =>
      if meta.hasNextPage then
        match meta.nextCursor with
        | some c =>
          let rest := followPages docs q fuel (some c)
          (plots ++ rest.1, rest.2)
        | none => (plots, false)
      else (plots, true)

/-! ## Plot mutations (`app/services/firestore.py`: `update_plot`, `release_plot`)

The mutation paths address the stored document shape: business fields live
in a `details` sub-object, while `expiryDate`, `investmentAmount`,
`employmentGenerated`, `allocatedDate` and `updatedAt` are top-level
fields (exactly the field paths the two functions write, plus
`allocatedDate`, which neither touches).  String-valued detail fields are
cleared by writing `""`, nullable top-level fields by writing null
(`Option.none`); `updatedAt` stands for `firestore.SERVER_TIMESTAMP`,
supplied here as the `now` argument. -/

/-- The `details` sub-object of a stored plot document. -/
structure PlotDetails where
  plotStatus : String
  category : String
  areaInSqm : Int
  areaInHa : Int
  companyName : String
  activity : String
  operationalStatus : String
  remark : String
deriving DecidableEq, Repr

/-- A stored plot document as addressed by the mutation paths. -/
structure StoredPlotDoc where
  id : String
  name : String
  details : PlotDetails
  allocatedDate : Option String
  expiryDate : Option String
  investmentAmount : Option Int
  employmentGenerated : Option Int
  updatedAt : Nat
deriving DecidableEq, Repr

/-- Python `' '.join(s.split())`: split on whitespace runs (dropping empty
pieces) and re-join with single spaces. -/
def normalizeWS (s : String) : String :=
  " ".intercalate ((s.split Char.isWhitespace).filter (fun t => t ≠ ""))

/-- The shared plot lookup of `update_plot`/`release_plot` (Step 4): first
an exact `where("name", "==", plotName)` query (the first match in
collection order), then the fallback scan comparing whitespace-normalized,
lowercased names; `none` when both fail. -/
def findPlotByName (coll : List StoredPlotDoc) (plotName : String) :
    Option StoredPlotDoc :=
  match coll.filter (fun d => d.name = plotName) with
  | doc :: _ => some doc
  | [] => coll.find? (fun d =>
      pyLower (normalizeWS plotName) = pyLower (normalizeWS d.name))

/-- The exceptions the mutation paths can raise: `ValueError` from
topology validation (HTTP 400 INVALID_MAPPING), `PermissionError` from the
zone pin (HTTP 403 FORBIDDEN), `ValueError` for a missing plot (HTTP
404 PLOT_NOT_FOUND). -/
inductive MutationError where
  | Validation (e : MappingError)
  | AccessDenied
  | PlotNotFound
deriving DecidableEq, Repr

/-- `PlotUpdateRequest` from `app/schemas/plots.py` (country, zoneCode,
phase, plotName, plotStatus plus optional business fields), extended with
the `category`/`areaInSqm`/`areaInHa` optional fields that
`FirestoreService.update_plot` reads from the request. -/
structure PlotUpdateRequest where
  country : String
  zoneCode : String
  phase : Int
  plotName : String
  companyName : Option String
  sector : Option String
  plotStatus : PlotStatus
  activity : Option String
  investmentAmount : Option Int
  employmentGenerated : Option Int
  allocatedDate : Option String
  expiryDate : Option String
  category : Option PlotCategory
  areaInSqm : Option Int
  areaInHa : Option Int
deriving DecidableEq, Repr

/-- `PlotUpdateResponse` from `app/schemas/plots.py`. -/
structure PlotUpdateResponse where
  message : String
  plotName : String
  status : String
deriving DecidableEq, Repr

/-- The field-path update performed by `update_plot` (Steps 6-7): always
`details.plotStatus` and `updatedAt`; `details.category`,
`details.areaInSqm`, `details.areaInHa` only when supplied.  No other
field path is written. -/
def applyPlotUpdate (req : PlotUpdateRequest) (now : Nat) (d : StoredPlotDoc) :
    StoredPlotDoc :=
  { d with
    updatedAt := now
    details := { d.details with
      plotStatus := req.plotStatus.val
      category := match req.category with
        | some c => c.val
        | none => d.details.category
      areaInSqm := req.areaInSqm.getD d.details.areaInSqm
      areaInHa := req.areaInHa.getD d.details.areaInHa } }

/-- `FirestoreService.update_plot` over a collection state: topology
validation, zone-pin check (`if user_zone and user_zone != zoneCode`),
plot lookup by name, then the document update. -/
def update_plot (coll : List StoredPlotDoc) (req : PlotUpdateRequest)
    (user_zone : Option String) (now : Nat) :
    Except MutationError (List StoredPlotDoc × PlotUpdateResponse) :=
  match validate_country_zone_mapping req.country req.zoneCode with
  | .error e => .error (.Validation e)
  | .ok _ =>
    if pyTruthy user_zone && user_zone ≠ some req.zoneCode then
      .error .AccessDenied
    else
      match findPlotByName coll req.plotName with
      | none => .error .PlotNotFound
      | some plot_doc =>
        let coll' := coll.map (fun d =>
          if d.id = plot_doc.id then applyPlotUpdate req now d else d)
        .ok (coll', { message := "Plot updated successfully"
                      plotName := req.plotName
                      status := req.plotStatus.val })

/-- `PlotReleaseRequest` from `app/schemas/plots.py` (country, zoneCode,
plotName, plotStatus), extended with the `phase` field that
`FirestoreService.release_plot` reads to build the collection path. -/
structure PlotReleaseRequest where
  country : String
  zoneCode : String
  phase : Int
  plotName : String
  plotStatus : String
deriving DecidableEq, Repr

/-- `PlotReleaseRequest.validate_plot_status` from `app/schemas/plots.py`:
rejects every status whose lowercasing is not `"available"`, and
normalizes the accepted value to lowercase. -/
def validate_plot_status (v : String) : Except String String :=
  if pyLower v ≠ "available" then
    .error "Plot status must be available for release operation"
  else
    .ok (pyLower v)

/-- `PlotReleaseResponse` fields built by `release_plot`. -/
structure PlotReleaseResponse where
  message : String
  plotName : String
  zoneCode : String
  status : String
deriving DecidableEq, Repr

/-- The field-path update performed by `release_plot` (Steps 6-7): always
`details.plotStatus` and `updatedAt`; when the requested status lowercases
to `"available"`, additionally clear `details.companyName`,
`details.activity`, `details.operationalStatus`, `details.remark` (to
`""`) and null the top-level `expiryDate`, `investmentAmount`,
`employmentGenerated`.  `allocatedDate` is not among the written field
paths in either branch. -/
def applyPlotRelease (req : PlotReleaseRequest) (now : Nat) (d : StoredPlotDoc) :
    StoredPlotDoc :=
  if pyLower req.plotStatus = "available" then
    { d with
      updatedAt := now
      expiryDate := none
      investmentAmount := none
      employmentGenerated := none
      details := { d.details with
        plotStatus := req.plotStatus
        companyName := ""
        activity := ""
        operationalStatus := ""
        remark := "" } }
  else
    { d with
      updatedAt := now
      details := { d.details with plotStatus := req.plotStatus } }

/-- `FirestoreService.release_plot` over a collection state: topology
validation, zone-pin check, plot lookup by name (same two-phase lookup as
`update_plot`), then the status/clear update. -/
def release_plot (coll : List StoredPlotDoc) (req : PlotReleaseRequest)
    (user_zone : Option String) (now : Nat) :
    Except MutationError (List StoredPlotDoc × PlotReleaseResponse) :=
  match validate_country_zone_mapping req.country req.zoneCode with
  | .error e => .error (.Validation e)
  | .ok _ =>
    if pyTruthy user_zone && user_zone ≠ some req.zoneCode then
      .error .AccessDenied
    else
      match findPlotByName coll req.plotName with
      | none => .error .PlotNotFound
      | some plot_doc =>
        let coll' := coll.map (fun d =>
          if d.id = plot_doc.id then applyPlotRelease req now d else d)
        .ok (coll', { message := "Plot status updated to " ++ req.plotStatus ++
                        " successfully"
                      plotName := req.plotName
                      zoneCode := req.zoneCode
                      status := pyLower req.plotStatus })

/-! ## Concrete fixtures used in scenarios and counterexamples -/

/-- A five-document collection in id order, alternating categories. -/
def scenarioDoc (i : Nat) : PlotDoc :=
  { id := "plot" ++ toString i
    name := "GSEZ-R-00" ++ toString i
    plotStatus := .AVAILABLE
    category := if i % 2 = 0 then .COMMERCIAL else .RESIDENTIAL
    phase := 1
    areaInSqm := 1000
    areaInHa := 1 }

/-- The five-record collection of the pagination scenarios. -/
def scenarioDocs : List PlotDoc :=
  [scenarioDoc 1, scenarioDoc 2, scenarioDoc 3, scenarioDoc 4, scenarioDoc 5]

/-- The listing request of the pagination scenarios:
country gabon, zone GSEZ, phase1, no category filter, page size 2. -/
def scenarioQuery : PlotQueryParams :=
  { country := "gabon"
    zoneCode := "GSEZ"
    phase := "phase1"
    category := none
    limit := some 2
    cursor := none }

/-- An allocated plot document (all allocation fields populated). -/
def allocDoc : StoredPlotDoc :=
  { id := "doc1"
    name := "GSEZ-C-002"
    details := { plotStatus := "Occupied"
                 category := "Commercial"
                 areaInSqm := 1000
                 areaInHa := 1
                 companyName := "OldCo"
                 activity := "Mining"
                 operationalStatus := "Operational"
                 remark := "ok" }
    allocatedDate := some "2024-07-04"
    expiryDate := some "2029-07-04"
    investmentAmount := some 1000000
    employmentGenerated := some 50
    updatedAt := 0 }

/-- A release request with status available for the allocated document. -/
def relAvailReq : PlotReleaseRequest :=
  { country := "gabon", zoneCode := "GSEZ", phase := 1
    plotName := "GSEZ-C-002", plotStatus := "available" }

/-- A release request with status Occupied for the allocated document. -/
def relOccReq : PlotReleaseRequest :=
  { country := "gabon", zoneCode := "GSEZ", phase := 1
    plotName := "GSEZ-C-002", plotStatus := "Occupied" }

/-- The stored state of `allocDoc` after releasing it with status
available at time 7: detail strings cleared, nullable top-level fields
nulled, but `allocatedDate` still present. -/
def releasedAllocDoc : StoredPlotDoc :=
  { id := "doc1"
    name := "GSEZ-C-002"
    details := { plotStatus := "available"
                 category := "Commercial"
                 areaInSqm := 1000
                 areaInHa := 1
                 companyName := ""
                 activity := ""
                 operationalStatus := ""
                 remark := "" }
    allocatedDate := some "2024-07-04"
    expiryDate := none
    investmentAmount := none
    employmentGenerated := none
    updatedAt := 7 }

/-- An allocation (PUT) request supplying business fields, among them
companyName Acme, but none of category/areaInSqm/areaInHa. -/
def upReq : PlotUpdateRequest :=
  { country := "gabon", zoneCode := "GSEZ", phase := 1
    plotName := "GSEZ-C-002"
    companyName := some "Acme"
    sector := some "Tech"
    plotStatus := .ALLOCATED
    activity := some "Software"
    investmentAmount := some 500
    employmentGenerated := some 10
    allocatedDate := some "2025-01-01"
    expiryDate := some "2030-01-01"
    category := none
    areaInSqm := none
    areaInHa := none }

/-- The stored state of `allocDoc` after `upReq` at time 3: only
`details.plotStatus` and `updatedAt` changed; every supplied business
field of the request (companyName, activity, amounts, dates) was ignored. -/
def updatedAllocDoc : StoredPlotDoc :=
  { id := "doc1"
    name := "GSEZ-C-002"
    details := { plotStatus := "Allocated"
                 category := "Commercial"
                 areaInSqm := 1000
                 areaInHa := 1
                 companyName := "OldCo"
                 activity := "Mining"
                 operationalStatus := "Operational"
                 remark := "ok" }
    allocatedDate := some "2024-07-04"
    expiryDate := some "2029-07-04"
    investmentAmount := some 1000000
    employmentGenerated := some 50
    updatedAt := 3 }

/-- Pagination metadata of the first scenario page without category
filtering. -/
def pageMetaUnfiltered : PaginationMeta :=
  { limit := 2, hasNextPage := true, nextCursor := some "plot2", totalReturned := 2 }

/-- Pagination metadata of the first scenario page with the Industrial
category filter: same page window, but zero returned records. -/
def pageMetaFiltered : PaginationMeta :=
  { limit := 2, hasNextPage := true, nextCursor := some "plot2", totalReturned := 0 }

/-! ## Pagination lemmas -/

/-- The effective page size `limit or 50` is always positive. -/
theorem effLimit_pos (o : Option Nat) : 1 ≤ effLimit o := by
  match o with
  | none => simp [effLimit]
  | some l =>
    simp only [effLimit]
    split <;> omega

/-- The category filter distributes over concatenation. -/
theorem filterByCategory_append (c : Option PlotCategory) (l₁ l₂ : List PlotDoc) :
    filterByCategory c (l₁ ++ l₂) = filterByCategory c l₁ ++ filterByCategory c l₂ := by
  cases c with
  | none => rfl
  | some cat => simp [filterByCategory, List.filter_append]

/-- The lexicographic order on character lists is irreflexive. -/
theorem strLtb_irrefl (l : List Char) : strLtb l l = false := by
  induction l with
  | nil => rfl
  | cons a as ih => simp [strLtb, lt_self_iff_false, ih]

/-- The lexicographic order on character lists is asymmetric. -/
theorem strLtb_asymm : ∀ {l₁ l₂ : List Char},
    strLtb l₁ l₂ = true → strLtb l₂ l₁ = false := by
  intro l₁
  induction l₁ with
  | nil =>
    intro l₂ h
    cases l₂ with
    | nil => simp [strLtb] at h
    | cons b bs => rfl
  | cons a as ih =>
    intro l₂ h
    cases l₂ with
    | nil => simp [strLtb] at h
    | cons b bs =>
      simp only [strLtb] at h ⊢
      rcases lt_trichotomy a b with hab | rfl | hab
      · rw [if_neg (asymm hab), if_pos hab]
      · rw [if_neg (lt_irrefl a), if_neg (lt_irrefl a)] at h ⊢
        exact ih h
      · rw [if_neg (asymm hab), if_pos hab] at h
        simp at h

/-- Irreflexivity of the document-id order. -/
theorem strLt_irrefl (a : String) : strLt a a = false := strLtb_irrefl _

/-- Asymmetry of the document-id order. -/
theorem strLt_asymm {a b : String} (h : strLt a b = true) : strLt b a = false :=
  strLtb_asymm h

/-- On a strictly id-sorted collection `pre ++ post`, `start_after` on the
last document of `pre` keeps exactly `post`. -/
theorem filter_gt_getLast_append (pre post : List PlotDoc)
    (hs : (pre ++ post).Pairwise (fun a b => strLt a.id b.id = true)) (hpre : pre ≠ []) :
    (pre ++ post).filter (fun d => strLt (pre.getLast hpre).id d.id) = post := by
  rw [List.pairwise_append] at hs
  obtain ⟨hpre', hcross⟩ := hs
  obtain ⟨_, hcross⟩ := hcross
  rw [List.filter_append]
  have h1 : pre.filter (fun d => strLt (pre.getLast hpre).id d.id) = [] := by
    rw [List.filter_eq_nil_iff]
    intro a ha
    have hp2 : (pre.dropLast ++ [pre.getLast hpre]).Pairwise
        (fun a b => strLt a.id b.id = true) := by
      rw [List.dropLast_append_getLast]; exact hpre'
    have ha2 : a ∈ pre.dropLast ++ [pre.getLast hpre] := by
      rw [List.dropLast_append_getLast]; exact ha
    rw [List.pairwise_append] at hp2
    rcases List.mem_append.mp ha2 with h | h
    · have hfa := strLt_asymm (hp2.2.2 a h _ (List.mem_singleton_self _))
      simp [hfa]
    · rw [List.mem_singleton] at h
      rw [h]
      simp [strLt_irrefl]
  have h2 : post.filter (fun d => strLt (pre.getLast hpre).id d.id) = post := by
    rw [List.filter_eq_self]
    intro b hb
    exact hcross _ (List.getLast_mem hpre) _ hb
  rw [h1, h2, List.nil_append]

/-- `toPlotResponse` only reads `country` and `zoneCode`, so overriding
the cursor leaves it unchanged. -/
theorem toPlotResponse_cursor (q : PlotQueryParams) (c : Option String) :
    toPlotResponse { q with cursor := c } = toPlotResponse q := rfl

/-- Workhorse for pagination completeness: if the cursor state addresses
the suffix `rest` of the id-sorted collection, following the pages from
there yields exactly the matching part of `rest` and terminates with a
final page. -/
theorem followPages_suffix (q : PlotQueryParams)
    (hq : validate_country_zone_mapping q.country q.zoneCode = .ok true) :
    ∀ (fuel : Nat) (docs front rest : List PlotDoc) (cursor : Option String),
      docs = front ++ rest →
      docs.Pairwise (fun a b => strLt a.id b.id = true) →
      applyCursor docs cursor = rest →
      rest.length < fuel →
      followPages docs q fuel cursor =
        ((filterByCategory q.category rest).map (toPlotResponse q), true) := by
  intro fuel
  induction fuel with
  | zero =>
    intro docs front rest cursor _ _ _ hlen
    omega
  | succ fuel ih =>
    intro docs front rest cursor hsplit hsort hcur hlen
    simp only [followPages, get_available_plots, hq, hcur, Bool.false_and,
      Bool.false_eq_true, if_false, toPlotResponse_cursor, reduceIte]
    have hL := effLimit_pos q.limit
    set L := effLimit q.limit with hLdef
    by_cases hle : rest.length ≤ L
    · -- final page: everything left fits
      have htake : rest.take (L + 1) = rest := List.take_of_length_le (by omega)
      have hnext : decide (L < rest.length) = false := by
        simp
        omega
      simp only [htake, hnext, Bool.false_eq_true, if_false, reduceIte]
    · -- full page followed by more
      push_neg at hle
      have hfetchlen : (rest.take (L + 1)).length = L + 1 := by
        rw [List.length_take]; omega
      have hnext : decide (L < (rest.take (L + 1)).length) = true := by
        rw [hfetchlen]; simp
      have hpage : (rest.take (L + 1)).dropLast = rest.take L := by
        rw [List.dropLast_eq_take, hfetchlen, List.take_take]
        congr 1
        omega
      have hpagelen : (rest.take L).length = L := by
        rw [List.length_take]; omega
      have hne : rest.take L ≠ [] := by
        intro h
        rw [h] at hpagelen
        simp at hpagelen
        omega
      set last := (rest.take L).getLast hne with hlast
      have hlast? : (rest.take L).getLast? = some last :=
        List.getLast?_eq_getLast _ hne
      have hprene : front ++ rest.take L ≠ [] := by
        intro h
        rcases List.append_eq_nil.mp h with ⟨_, h2⟩
        exact hne h2
      have hdocs2 : docs = (front ++ rest.take L) ++ rest.drop L := by
        rw [hsplit, List.append_assoc, List.take_append_drop]
      have hsort2 : ((front ++ rest.take L) ++ rest.drop L).Pairwise
          (fun a b => strLt a.id b.id = true) := by
        rw [← hdocs2]; exact hsort
      have hlastpre : (front ++ rest.take L).getLast hprene = last := by
        rw [hlast]
        exact List.getLast_append' front (rest.take L) hne
      have hlastmem : last ∈ docs := by
        rw [hsplit]
        exact List.mem_append_right front
          (List.mem_of_mem_take (List.getLast_mem hne))
      have hany : docs.any (fun d => d.id = last.id) = true := by
        rw [List.any_eq_true]
        exact ⟨last, hlastmem, by simp⟩
      have hcur' : applyCursor docs (some last.id) = rest.drop L := by
        simp only [applyCursor, hany, if_true, reduceIte]
        rw [hdocs2]
        have hfil := filter_gt_getLast_append (front ++ rest.take L) (rest.drop L)
          hsort2 hprene
        rw [hlastpre] at hfil
        exact hfil
      have hrec := ih docs (front ++ rest.take L) (rest.drop L) (some last.id)
        hdocs2 hsort hcur'
        (by rw [List.length_drop]; omega)
      have hlists : (filterByCategory q.category (rest.take L)).map (toPlotResponse q) ++
          (filterByCategory q.category (rest.drop L)).map (toPlotResponse q) =
          (filterByCategory q.category rest).map (toPlotResponse q) := by
        conv_rhs => rw [← List.take_append_drop L rest]
        rw [filterByCategory_append, List.map_append]
      simp only [hnext, if_true, reduceIte, hpage, hlast?, Option.map_some', hrec]
      rw [hlists]

/-! ## Claim theorems -/

/-- Every canonical zone code in the static table is non-empty, so the
Python falsiness check in topology validation means exactly key absence. -/
theorem lookup_country_zone_ne_empty (k v : String)
    (h : country_zone_mapping.lookup k = some v) : v ≠ "" := by
  simp only [country_zone_mapping, List.lookup] at h
  repeat' split at h
  all_goals first
    | (injection h with h2 ; subst h2 ; decide)
    | (cases h)

/-- Claim C2: a token issued with role R carries exactly the fixed
permission table entry for R (super_admin: read/write plots, zones,
users; zone_admin: read/write plots, zones; normal_user: read plots,
zones and empty write), and any role string outside the three maps to the
empty permission sets. -/
theorem issuance_permission_binding :
    (∀ (req : AuthTokenRequest) (now : Nat),
        (create_jwt_token req now).permissions = get_permissions_for_role req.role.val)
    ∧ get_permissions_for_role "super_admin" =
        ⟨["plots", "zones", "users"], ["plots", "zones", "users"]⟩
    ∧ get_permissions_for_role "zone_admin" = ⟨["plots", "zones"], ["plots", "zones"]⟩
    ∧ get_permissions_for_role "normal_user" = ⟨["plots", "zones"], []⟩
    ∧ ∀ role : String,
        role ∉ ["super_admin", "zone_admin", "normal_user"] →
        get_permissions_for_role role = ⟨[], []⟩ := by
  refine ⟨fun req now => rfl, by decide, by decide, by decide, ?_⟩
  intro role hrole
  simp only [List.mem_cons, List.not_mem_nil, or_false, not_or] at hrole
  obtain ⟨h1, h2, h3⟩ := hrole
  simp [get_permissions_for_role, PERMISSIONS_MAP, h1, h2, h3]

/-- Witness for C2 at the unknown role string auditor. -/
theorem issuance_permission_binding_witness :
    get_permissions_for_role "auditor" = ⟨[], []⟩ :=
  issuance_permission_binding.2.2.2.2 "auditor" (by decide)

/-- Claim C3: topology validation succeeds exactly when the lowercased
country is a key of the static table and the zone code is that country's
canonical one; a supported country with a different zone code fails with
InvalidMapping, an unsupported country fails with UnsupportedCountry, and
gabon/GSEZ succeeds. -/
theorem topology_validation :
    (∀ country zoneCode : String,
        validate_country_zone_mapping country zoneCode = .ok true ↔
          country_zone_mapping.lookup (pyLower country) = some zoneCode)
    ∧ (∀ country zoneCode : String,
        country_zone_mapping.lookup (pyLower country) = none →
          validate_country_zone_mapping country zoneCode = .error .UnsupportedCountry)
    ∧ (∀ country zoneCode expected : String,
        country_zone_mapping.lookup (pyLower country) = some expected →
          zoneCode ≠ expected →
          validate_country_zone_mapping country zoneCode = .error .InvalidMapping)
    ∧ validate_country_zone_mapping "gabon" "GSEZ" = .ok true := by
  refine ⟨?_, ?_, ?_, by decide⟩
  · intro c z
    unfold validate_country_zone_mapping
    cases h : country_zone_mapping.lookup (pyLower c) with
    | none => simp [h]
    | some e =>
      have he : e ≠ "" := lookup_country_zone_ne_empty _ _ h
      rcases eq_or_ne z e with rfl | hz
      · simp [h, he]
      · simp [h, he, hz, Ne.symm hz]
  · intro c z h
    unfold validate_country_zone_mapping
    simp [h]
  · intro c z e h hne
    unfold validate_country_zone_mapping
    simp [h, lookup_country_zone_ne_empty _ _ h, hne]

/-- Witness for C3: atlantis is unsupported, gabon with the wrong zone
code fails with InvalidMapping. -/
theorem topology_validation_witness :
    validate_country_zone_mapping "atlantis" "GSEZ" = .error .UnsupportedCountry
    ∧ validate_country_zone_mapping "gabon" "WRONG" = .error .InvalidMapping :=
  ⟨topology_validation.2.1 "atlantis" "GSEZ" (by decide),
   topology_validation.2.2.1 "gabon" "WRONG" "GSEZ" (by decide) (by decide)⟩

/-- Claim C9: token issuance performs no allow-list or topology check on
the zone: with the correct issuance secret, an enum role and any 4-6
uppercase-letter zone string, the schema validator accepts the zone,
request validation returns no error, and the issued token embeds the
caller-supplied zone verbatim. -/
theorem issuance_no_topology_check
    (userId zone secret : String) (role : UserRole) (now : Nat)
    (hsecret : secret = AUTH_SECRET_KEY)
    (halpha : pyIsAlpha zone = true) (hupper : pyIsUpper zone = true)
    (hlen4 : 4 ≤ zone.length) (hlen6 : zone.length ≤ 6) :
    validate_zone_code zone = .ok zone
    ∧ validate_request ⟨userId, role, zone⟩ secret AUTH_SECRET_KEY = none
    ∧ (create_jwt_token ⟨userId, role, zone⟩ now).zone = zone := by
  refine ⟨?_, ?_, rfl⟩
  · simp [validate_zone_code, halpha, hupper, hlen4, hlen6]
  · subst hsecret
    cases role <;> rfl

/-- Witness for C9 at the zone ZZZZ, which appears in no country's
topology entry. -/
theorem issuance_no_topology_check_witness :
    (validate_zone_code "ZZZZ" = .ok "ZZZZ"
      ∧ validate_request ⟨"u1", UserRole.zone_admin, "ZZZZ"⟩
          AUTH_SECRET_KEY AUTH_SECRET_KEY = none
      ∧ (create_jwt_token ⟨"u1", UserRole.zone_admin, "ZZZZ"⟩ 0).zone = "ZZZZ")
    ∧ country_zone_mapping.all (fun p => p.2 ≠ "ZZZZ") = true :=
  ⟨issuance_no_topology_check "u1" "ZZZZ" AUTH_SECRET_KEY .zone_admin 0 rfl
      (by decide) (by decide) (by decide) (by decide),
   by decide⟩

/-- Claim C5: starting a plot list with no cursor and repeatedly following
nextCursor until hasNextPage is false yields, over the concatenation of
all pages, exactly the matching records in document order - every matching
record exactly once, no omission and no duplicate - for any strictly
id-sorted collection state and fixed filter, absent concurrent mutation. -/
theorem pagination_completeness (docs : List PlotDoc) (q : PlotQueryParams)
    (hsort : docs.Pairwise (fun a b => strLt a.id b.id = true))
    (hq : validate_country_zone_mapping q.country q.zoneCode = .ok true) :
    followPages docs q (docs.length + 1) none =
      ((filterByCategory q.category docs).map (toPlotResponse q), true) :=
  followPages_suffix q hq (docs.length + 1) docs [] docs none rfl hsort rfl
    (Nat.lt_succ_self _)

/-- Witness for C5 on the five-record scenario collection. -/
theorem pagination_completeness_witness :
    followPages scenarioDocs scenarioQuery (scenarioDocs.length + 1) none =
      ((filterByCategory scenarioQuery.category scenarioDocs).map
        (toPlotResponse scenarioQuery), true) :=
  pagination_completeness scenarioDocs scenarioQuery (by decide) (by decide)

/-- Claim C6 counterexample: on five matching records with limit 2 and no
cursor, the first page's nextCursor is the key of the 2nd record (the last
record of the returned page), not the key of the 3rd record as claimed. -/
theorem pagination_scenario_counterexample :
    get_available_plots scenarioDocs scenarioQuery none false =
      .ok ((scenarioDocs.take 2).map (toPlotResponse scenarioQuery), pageMetaUnfiltered)
    ∧ pageMetaUnfiltered.nextCursor = some "plot2"
    ∧ scenarioDocs.map PlotDoc.id = ["plot1", "plot2", "plot3", "plot4", "plot5"]
    ∧ (some "plot2" : Option String) ≠ some "plot3" :=
  ⟨by decide, by decide, by decide, by decide⟩

/-- Claim C6 (amended): with 5 matching records and limit 2, the first call
returns records 1-2 with hasNextPage true and nextCursor the 2nd record's
key; following with that cursor returns records 3-4 with hasNextPage true
and nextCursor the 4th record's key; the third call returns record 5 with
hasNextPage false and no nextCursor. -/
theorem pagination_scenario :
    get_available_plots scenarioDocs scenarioQuery none false =
      .ok ((scenarioDocs.take 2).map (toPlotResponse scenarioQuery),
        { limit := 2, hasNextPage := true, nextCursor := some "plot2",
          totalReturned := 2 })
    ∧ get_available_plots scenarioDocs { scenarioQuery with cursor := some "plot2" }
        none false =
      .ok (((scenarioDocs.drop 2).take 2).map (toPlotResponse scenarioQuery),
        { limit := 2, hasNextPage := true, nextCursor := some "plot4",
          totalReturned := 2 })
    ∧ get_available_plots scenarioDocs { scenarioQuery with cursor := some "plot4" }
        none false =
      .ok ((scenarioDocs.drop 4).map (toPlotResponse scenarioQuery),
        { limit := 2, hasNextPage := false, nextCursor := none,
          totalReturned := 1 }) :=
  ⟨by decide, by decide, by decide⟩

/-- Claim C10: hasNextPage, nextCursor (and limit) are computed from the
raw fetch of limit+1 documents before the category filter, which runs only
on the already-truncated page; totalReturned always equals the number of
records in the returned page after filtering, and a page can return fewer
than limit records (even zero) while hasNextPage is true. -/
theorem pagination_meta_before_filter :
    (∀ (docs : List PlotDoc) (q : PlotQueryParams) (c c' : Option PlotCategory)
        (plots plots' : List PlotResponse) (m m' : PaginationMeta),
        get_available_plots docs { q with category := c } none false = .ok (plots, m) →
        get_available_plots docs { q with category := c' } none false = .ok (plots', m') →
        m.hasNextPage = m'.hasNextPage ∧ m.nextCursor = m'.nextCursor ∧ m.limit = m'.limit)
    ∧ (∀ (docs : List PlotDoc) (q : PlotQueryParams) (uz : Option String) (iza : Bool)
        (plots : List PlotResponse) (m : PaginationMeta),
        get_available_plots docs q uz iza = .ok (plots, m) →
        m.totalReturned = plots.length)
    ∧ get_available_plots scenarioDocs { scenarioQuery with category := some .INDUSTRIAL }
        none false = .ok ([], pageMetaFiltered)
    ∧ pageMetaFiltered.totalReturned = 0
    ∧ pageMetaFiltered.hasNextPage = true
    ∧ pageMetaFiltered.totalReturned < pageMetaFiltered.limit := by
  refine ⟨?_, ?_, by decide, by decide, by decide, by decide⟩
  · intro docs q c c' plots plots' m m' h1 h2
    simp only [get_available_plots] at h1 h2
    cases hv : validate_country_zone_mapping q.country q.zoneCode with
    | error e =>
      rw [hv] at h1
      simp at h1
    | ok b =>
      rw [hv] at h1 h2
      simp only [pyTruthy, Bool.false_and, Bool.and_false, Bool.false_eq_true,
        if_false, reduceIte, Except.ok.injEq, Prod.mk.injEq] at h1 h2
      obtain ⟨-, hm⟩ := h1
      obtain ⟨-, hm'⟩ := h2
      subst hm
      subst hm'
      exact ⟨rfl, rfl, rfl⟩
  · intro docs q uz iza plots m h
    simp only [get_available_plots] at h
    cases hv : validate_country_zone_mapping q.country q.zoneCode with
    | error e =>
      rw [hv] at h
      simp at h
    | ok b =>
      rw [hv] at h
      split at h
      · exact Except.noConfusion h
      · split at h
        · exact Except.noConfusion h
        · simp only [Except.ok.injEq, Prod.mk.injEq] at h
          obtain ⟨hp, hm⟩ := h
          subst hm
          subst hp
          rfl

/-- Witness for C10: the scenario page metadata with and without the
Industrial category filter agree on hasNextPage, nextCursor and limit,
and the filtered page reports totalReturned equal to its (empty) record
list. -/
theorem pagination_meta_before_filter_witness :
    (pageMetaUnfiltered.hasNextPage = pageMetaFiltered.hasNextPage
      ∧ pageMetaUnfiltered.nextCursor = pageMetaFiltered.nextCursor
      ∧ pageMetaUnfiltered.limit = pageMetaFiltered.limit)
    ∧ pageMetaFiltered.totalReturned = ([] : List PlotResponse).length :=
  ⟨pagination_meta_before_filter.1 scenarioDocs scenarioQuery none (some .INDUSTRIAL)
      ((scenarioDocs.take 2).map (toPlotResponse scenarioQuery)) []
      pageMetaUnfiltered pageMetaFiltered (by decide) (by decide),
   pagination_meta_before_filter.2.1 scenarioDocs
      { scenarioQuery with category := some .INDUSTRIAL } none false []
      pageMetaFiltered (by decide)⟩

/-- Claim C1 counterexample: a zone_admin pinned to GSEZ requesting a plot
list for zoneCode BSEZ under the unsupported country atlantis is rejected
with the topology ValueError (HTTP 400 INVALID_MAPPING), not with the
Forbidden PermissionError: the rejection is not Forbidden for every
requested country, because topology validation runs first. -/
theorem zone_pinning_counterexample :
    get_available_plots scenarioDocs
      { scenarioQuery with country := "atlantis", zoneCode := "BSEZ" }
      (some "GSEZ") true = .error (.Validation .UnsupportedCountry)
    ∧ (Except.error (.Validation .UnsupportedCountry) :
        Except QueryError (List PlotResponse × PaginationMeta)) ≠
      .error .AccessDenied :=
  ⟨by decide, by decide⟩

/-- Claim C1 (amended): for every plot list or plot mutation request whose
(country, zoneCode) pair passes topology validation, a zone_admin whose
non-empty pinned zone differs from the requested zoneCode is rejected with
the Forbidden (PermissionError) rejection. -/
theorem zone_pinning
    (docs : List PlotDoc) (q : PlotQueryParams)
    (coll : List StoredPlotDoc) (ureq : PlotUpdateRequest)
    (rreq : PlotReleaseRequest) (Z : String) (now : Nat)
    (hq : validate_country_zone_mapping q.country q.zoneCode = .ok true)
    (hu : validate_country_zone_mapping ureq.country ureq.zoneCode = .ok true)
    (hr : validate_country_zone_mapping rreq.country rreq.zoneCode = .ok true)
    (hZ : Z ≠ "")
    (hzq : Z ≠ q.zoneCode) (hzu : Z ≠ ureq.zoneCode) (hzr : Z ≠ rreq.zoneCode) :
    get_available_plots docs q (some Z) true = .error .AccessDenied
    ∧ update_plot coll ureq (some Z) now = .error .AccessDenied
    ∧ release_plot coll rreq (some Z) now = .error .AccessDenied := by
  refine ⟨?_, ?_, ?_⟩
  · simp [get_available_plots, hq, pyTruthy, hZ, hzq]
  · simp [update_plot, hu, pyTruthy, hZ, hzu]
  · simp [release_plot, hr, pyTruthy, hZ, hzr]

/-- Witness for C1 (amended): a zone_admin pinned to GSEZ targeting the
validated pair benin/GDIZ is rejected with Forbidden on all three paths. -/
theorem zone_pinning_witness :
    get_available_plots scenarioDocs
        { scenarioQuery with country := "benin", zoneCode := "GDIZ" }
        (some "GSEZ") true = .error .AccessDenied
    ∧ update_plot [allocDoc]
        { upReq with country := "benin", zoneCode := "GDIZ" } (some "GSEZ") 0 =
      .error .AccessDenied
    ∧ release_plot [allocDoc]
        { relAvailReq with country := "benin", zoneCode := "GDIZ" } (some "GSEZ") 0 =
      .error .AccessDenied :=
  zone_pinning scenarioDocs
    { scenarioQuery with country := "benin", zoneCode := "GDIZ" }
    [allocDoc] { upReq with country := "benin", zoneCode := "GDIZ" }
    { relAvailReq with country := "benin", zoneCode := "GDIZ" } "GSEZ" 0
    (by decide) (by decide) (by decide) (by decide) (by decide) (by decide) (by decide)

/-- Claim C4 counterexample: releasing the allocated plot with status
available leaves allocatedDate set: the resulting record has status
available together with allocatedDate 2024-07-04 still present, so not
all of the claimed allocation fields are unset. -/
theorem release_clears_counterexample :
    release_plot [allocDoc] relAvailReq none 7 =
      .ok ([releasedAllocDoc],
        { message := "Plot status updated to available successfully"
          plotName := "GSEZ-C-002", zoneCode := "GSEZ", status := "available" })
    ∧ releasedAllocDoc.details.plotStatus = "available"
    ∧ releasedAllocDoc.allocatedDate = some "2024-07-04"
    ∧ releasedAllocDoc.allocatedDate ≠ none :=
  ⟨by decide, by decide, by decide, by decide⟩

/-- Claim C4 (amended): a successful release with status available updates
the located record by clearing companyName, activity, operationalStatus
and remark to the empty string and nulling expiryDate, investmentAmount
and employmentGenerated, while allocatedDate is left unchanged - so a
record can have status available with allocatedDate still set. -/
theorem release_available_clears
    (coll : List StoredPlotDoc) (req : PlotReleaseRequest) (now : Nat)
    (doc : StoredPlotDoc)
    (hv : validate_country_zone_mapping req.country req.zoneCode = .ok true)
    (hst : pyLower req.plotStatus = "available")
    (hfind : findPlotByName coll req.plotName = some doc) :
    release_plot coll req none now =
      .ok (coll.map (fun d => if d.id = doc.id then applyPlotRelease req now d else d),
        { message := "Plot status updated to " ++ req.plotStatus ++ " successfully"
          plotName := req.plotName, zoneCode := req.zoneCode
          status := pyLower req.plotStatus })
    ∧ ∀ d : StoredPlotDoc,
        (applyPlotRelease req now d).details.companyName = ""
        ∧ (applyPlotRelease req now d).details.activity = ""
        ∧ (applyPlotRelease req now d).details.operationalStatus = ""
        ∧ (applyPlotRelease req now d).details.remark = ""
        ∧ (applyPlotRelease req now d).expiryDate = none
        ∧ (applyPlotRelease req now d).investmentAmount = none
        ∧ (applyPlotRelease req now d).employmentGenerated = none
        ∧ (applyPlotRelease req now d).details.plotStatus = req.plotStatus
        ∧ (applyPlotRelease req now d).allocatedDate = d.allocatedDate := by
  constructor
  · simp [release_plot, hv, hfind, pyTruthy]
  · intro d
    simp [applyPlotRelease, hst]

/-- Witness for C4 (amended) on the allocated demo plot. -/
theorem release_available_clears_witness :
    release_plot [allocDoc] relAvailReq none 9 =
      .ok ([allocDoc].map
          (fun d => if d.id = allocDoc.id then applyPlotRelease relAvailReq 9 d else d),
        { message := "Plot status updated to " ++ relAvailReq.plotStatus ++ " successfully"
          plotName := relAvailReq.plotName, zoneCode := relAvailReq.zoneCode
          status := pyLower relAvailReq.plotStatus })
    ∧ ((applyPlotRelease relAvailReq 9 allocDoc).details.companyName = ""
        ∧ (applyPlotRelease relAvailReq 9 allocDoc).details.activity = ""
        ∧ (applyPlotRelease relAvailReq 9 allocDoc).details.operationalStatus = ""
        ∧ (applyPlotRelease relAvailReq 9 allocDoc).details.remark = ""
        ∧ (applyPlotRelease relAvailReq 9 allocDoc).expiryDate = none
        ∧ (applyPlotRelease relAvailReq 9 allocDoc).investmentAmount = none
        ∧ (applyPlotRelease relAvailReq 9 allocDoc).employmentGenerated = none
        ∧ (applyPlotRelease relAvailReq 9 allocDoc).details.plotStatus = relAvailReq.plotStatus
        ∧ (applyPlotRelease relAvailReq 9 allocDoc).allocatedDate = allocDoc.allocatedDate) := by
  have h := release_available_clears [allocDoc] relAvailReq 9 allocDoc
    (by decide) (by decide) (by decide)
  exact ⟨h.1, h.2 allocDoc⟩

/-- Claim C7 counterexample: an update request explicitly supplying
companyName Acme and investmentAmount 500 leaves the stored companyName
OldCo and investmentAmount 1000000 unchanged - the operation does not
overwrite every explicitly supplied optional field of the request. -/
theorem update_overwrites_counterexample :
    update_plot [allocDoc] upReq none 3 =
      .ok ([updatedAllocDoc],
        { message := "Plot updated successfully", plotName := "GSEZ-C-002",
          status := "Allocated" })
    ∧ upReq.companyName = some "Acme"
    ∧ updatedAllocDoc.details.companyName = "OldCo"
    ∧ upReq.investmentAmount = some 500
    ∧ updatedAllocDoc.investmentAmount = some 1000000 :=
  ⟨by decide, by decide, by decide, by decide, by decide⟩

/-- Claim C7 (amended): the update operation overwrites plotStatus and the
explicitly supplied fields among category, areaInSqm and areaInHa, leaves
fields not supplied unchanged, and ignores the other supplied business
fields of the request (companyName, sector, activity, investmentAmount,
employmentGenerated, allocatedDate, expiryDate); besides those detail
fields only updatedAt changes on the located record. -/
theorem update_plot_fields
    (coll : List StoredPlotDoc) (req : PlotUpdateRequest) (now : Nat)
    (doc : StoredPlotDoc)
    (hv : validate_country_zone_mapping req.country req.zoneCode = .ok true)
    (hfind : findPlotByName coll req.plotName = some doc) :
    update_plot coll req none now =
      .ok (coll.map (fun d => if d.id = doc.id then applyPlotUpdate req now d else d),
        { message := "Plot updated successfully", plotName := req.plotName,
          status := req.plotStatus.val })
    ∧ ∀ d : StoredPlotDoc,
        (applyPlotUpdate req now d).details.plotStatus = req.plotStatus.val
        ∧ (applyPlotUpdate req now d).details.category =
            (match req.category with | some c => c.val | none => d.details.category)
        ∧ (applyPlotUpdate req now d).details.areaInSqm = req.areaInSqm.getD d.details.areaInSqm
        ∧ (applyPlotUpdate req now d).details.areaInHa = req.areaInHa.getD d.details.areaInHa
        ∧ (applyPlotUpdate req now d).details.companyName = d.details.companyName
        ∧ (applyPlotUpdate req now d).details.activity = d.details.activity
        ∧ (applyPlotUpdate req now d).details.operationalStatus = d.details.operationalStatus
        ∧ (applyPlotUpdate req now d).details.remark = d.details.remark
        ∧ (applyPlotUpdate req now d).allocatedDate = d.allocatedDate
        ∧ (applyPlotUpdate req now d).expiryDate = d.expiryDate
        ∧ (applyPlotUpdate req now d).investmentAmount = d.investmentAmount
        ∧ (applyPlotUpdate req now d).employmentGenerated = d.employmentGenerated
        ∧ (applyPlotUpdate req now d).name = d.name
        ∧ (applyPlotUpdate req now d).id = d.id := by
  constructor
  · simp [update_plot, hv, hfind, pyTruthy]
  · intro d
    exact ⟨rfl, rfl, rfl, rfl, rfl, rfl, rfl, rfl, rfl, rfl, rfl, rfl, rfl, rfl⟩

/-- Witness for C7 (amended) on the allocated demo plot. -/
theorem update_plot_fields_witness :
    update_plot [allocDoc] upReq none 3 =
      .ok ([allocDoc].map
          (fun d => if d.id = allocDoc.id then applyPlotUpdate upReq 3 d else d),
        { message := "Plot updated successfully", plotName := upReq.plotName,
          status := upReq.plotStatus.val })
    ∧ ((applyPlotUpdate upReq 3 allocDoc).details.plotStatus = upReq.plotStatus.val
        ∧ (applyPlotUpdate upReq 3 allocDoc).details.category =
            (match upReq.category with | some c => c.val | none => allocDoc.details.category)
        ∧ (applyPlotUpdate upReq 3 allocDoc).details.areaInSqm =
            upReq.areaInSqm.getD allocDoc.details.areaInSqm
        ∧ (applyPlotUpdate upReq 3 allocDoc).details.areaInHa =
            upReq.areaInHa.getD allocDoc.details.areaInHa
        ∧ (applyPlotUpdate upReq 3 allocDoc).details.companyName = allocDoc.details.companyName
        ∧ (applyPlotUpdate upReq 3 allocDoc).details.activity = allocDoc.details.activity
        ∧ (applyPlotUpdate upReq 3 allocDoc).details.operationalStatus =
            allocDoc.details.operationalStatus
        ∧ (applyPlotUpdate upReq 3 allocDoc).details.remark = allocDoc.details.remark
        ∧ (applyPlotUpdate upReq 3 allocDoc).allocatedDate = allocDoc.allocatedDate
        ∧ (applyPlotUpdate upReq 3 allocDoc).expiryDate = allocDoc.expiryDate
        ∧ (applyPlotUpdate upReq 3 allocDoc).investmentAmount = allocDoc.investmentAmount
        ∧ (applyPlotUpdate upReq 3 allocDoc).employmentGenerated = allocDoc.employmentGenerated
        ∧ (applyPlotUpdate upReq 3 allocDoc).name = allocDoc.name
        ∧ (applyPlotUpdate upReq 3 allocDoc).id = allocDoc.id) := by
  have h := update_plot_fields [allocDoc] upReq 3 allocDoc (by decide) (by decide)
  exact ⟨h.1, h.2 allocDoc⟩

/-- Claim C8 counterexample: the release request validator rejects status
Occupied, so the release operation does not accept a status argument
ranging over both Available and Occupied. -/
theorem release_status_counterexample :
    validate_plot_status "Occupied" =
      .error "Plot status must be available for release operation"
    ∧ validate_plot_status "Available" = .ok "available" :=
  ⟨by decide, by decide⟩

/-- Claim C8 (amended): the release request schema accepts exactly the
statuses that lowercase to available (normalizing them to lowercase) and
rejects Occupied; at the service level - unreachable through the
validated request type - a release whose status does not lowercase to
available sets plotStatus to the given status verbatim and leaves every
other field of the record except updatedAt untouched. -/
theorem release_status_validation :
    (∀ v : String, pyLower v = "available" → validate_plot_status v = .ok "available")
    ∧ (∀ v : String, pyLower v ≠ "available" →
        validate_plot_status v =
          .error "Plot status must be available for release operation")
    ∧ ∀ (req : PlotReleaseRequest) (now : Nat) (d : StoredPlotDoc),
        pyLower req.plotStatus ≠ "available" →
        (applyPlotRelease req now d).details.plotStatus = req.plotStatus
        ∧ (applyPlotRelease req now d).details.companyName = d.details.companyName
        ∧ (applyPlotRelease req now d).details.activity = d.details.activity
        ∧ (applyPlotRelease req now d).details.operationalStatus = d.details.operationalStatus
        ∧ (applyPlotRelease req now d).details.remark = d.details.remark
        ∧ (applyPlotRelease req now d).details.category = d.details.category
        ∧ (applyPlotRelease req now d).details.areaInSqm = d.details.areaInSqm
        ∧ (applyPlotRelease req now d).details.areaInHa = d.details.areaInHa
        ∧ (applyPlotRelease req now d).allocatedDate = d.allocatedDate
        ∧ (applyPlotRelease req now d).expiryDate = d.expiryDate
        ∧ (applyPlotRelease req now d).investmentAmount = d.investmentAmount
        ∧ (applyPlotRelease req now d).employmentGenerated = d.employmentGenerated
        ∧ (applyPlotRelease req now d).updatedAt = now := by
  refine ⟨?_, ?_, ?_⟩
  · intro v h
    simp [validate_plot_status, h]
  · intro v h
    simp [validate_plot_status, h]
  · intro req now d h
    simp [applyPlotRelease, h]

/-- Witness for C8 (amended): AVAILABLE is accepted and normalized,
Reserved is rejected, and the service-level Occupied branch on the demo
plot keeps every allocation field. -/
theorem release_status_validation_witness :
    validate_plot_status "AVAILABLE" = .ok "available"
    ∧ validate_plot_status "Reserved" =
        .error "Plot status must be available for release operation"
    ∧ ((applyPlotRelease relOccReq 5 allocDoc).details.plotStatus = relOccReq.plotStatus
        ∧ (applyPlotRelease relOccReq 5 allocDoc).details.companyName =
            allocDoc.details.companyName
        ∧ (applyPlotRelease relOccReq 5 allocDoc).details.activity = allocDoc.details.activity
        ∧ (applyPlotRelease relOccReq 5 allocDoc).details.operationalStatus =
            allocDoc.details.operationalStatus
        ∧ (applyPlotRelease relOccReq 5 allocDoc).details.remark = allocDoc.details.remark
        ∧ (applyPlotRelease relOccReq 5 allocDoc).details.category = allocDoc.details.category
        ∧ (applyPlotRelease relOccReq 5 allocDoc).details.areaInSqm =
            allocDoc.details.areaInSqm
        ∧ (applyPlotRelease relOccReq 5 allocDoc).details.areaInHa = allocDoc.details.areaInHa
        ∧ (applyPlotRelease relOccReq 5 allocDoc).allocatedDate = allocDoc.allocatedDate
        ∧ (applyPlotRelease relOccReq 5 allocDoc).expiryDate = allocDoc.expiryDate
        ∧ (applyPlotRelease relOccReq 5 allocDoc).investmentAmount =
            allocDoc.investmentAmount
        ∧ (applyPlotRelease relOccReq 5 allocDoc).employmentGenerated =
            allocDoc.employmentGenerated
        ∧ (applyPlotRelease relOccReq 5 allocDoc).updatedAt = 5) :=
  ⟨release_status_validation.1 "AVAILABLE" (by decide),
   release_status_validation.2.1 "Reserved" (by decide),
   release_status_validation.2.2 relOccReq 5 allocDoc (by decide)⟩

end Arise
